import Mathlib

/-!
Verification of the bootstrap layer of the webguru78/backend-deploy
repository (five near-duplicate revisions of one Express `server.js`).

Revisions, as they appear in the sources:
- rev A: first block of `src/server.js` (bare `isConnected` boolean guard,
  per-request database middleware, 3-parameter global error middleware,
  404 body without `availableRoutes`);
- rev B: second block of `src/server.js` (`uploadBase` with `UPLOAD_DIR`
  override, per-directory guarded `requiredDirs.forEach`, eager
  `startServer`, defaulted Mongo URI);
- rev C: third block of `src/server.js` (`isProduction` flag, `uploadsDir`
  without an override, `createDirectories` with a single surrounding try,
  defaulted Mongo URI);
- rev D: first block of `src/unnamed/part_000` (readyState-guarded
  `connectDatabase`, per-request database middleware, no URI default);
- rev E: second block of `src/unnamed/part_000` (robust `isProduction`,
  `uploadsDir`, `createDirectories` with a single surrounding try,
  defaulted Mongo URI, connects eagerly in production).

Everything below is a shallow embedding of that code: JS truthiness is
made explicit, `process.env` becomes the `Env` structure, the event loop
becomes an explicit interleaving of atomic slices, and the Express
middleware chain becomes an ordered stage list traversed in registration
order.
-/

namespace Backend

/-- Recognized configuration inputs (`process.env` fields read by the
bootstrap layer). `none` models an unset variable. -/
structure Env where
  nodeEnv : Option String
  vercel : Option String
  mongoUri : Option String
  uploadDir : Option String
  port : Option Nat
deriving DecidableEq, Repr

/-- JS truthiness of an optional string: unset and the empty string are
falsy, every other string is truthy. -/
def truthyS : Option String → Bool
  | none => false
  | some s => s != ""

/-- Rev B (`server.js`): `const isServerless = !!process.env.VERCEL`. -/
def isServerless (e : Env) : Bool :=
  truthyS e.vercel

/-- Rev C (`server.js`): `const isProduction = process.env.NODE_ENV ===
'production' || process.env.VERCEL` used as a boolean condition. -/
def isProductionC (e : Env) : Bool :=
  (e.nodeEnv == some "production") || truthyS e.vercel

/-- Rev E (`part_000`): `const isProduction = process.env.NODE_ENV ===
'production' || process.env.VERCEL === '1' || process.env.VERCEL ===
'true'`. -/
def isProductionE (e : Env) : Bool :=
  (e.nodeEnv == some "production") || (e.vercel == some "1") || (e.vercel == some "true")

/-- Node `path.join` restricted to the two-argument form used by the
source (no normalization is needed for the literals involved). -/
def pathJoin (a b : String) : String :=
  a ++ "/" ++ b

/-- Node `path.resolve` for a single argument: an absolute path (leading
slash) is returned as-is, a relative one is resolved against the process
working directory. Normalization of dot segments is not modelled; none of
the claims depend on it. -/
def pathResolve (cwd p : String) : String :=
  if "/".data.isPrefixOf p.data then p else cwd ++ "/" ++ p

/-- Rev B (`server.js`): `const uploadBase = uploadBaseEnv ?
path.resolve(uploadBaseEnv) : (isServerless ? path.join(os.tmpdir(),
'gym_uploads') : defaultLocalUploads)` where `defaultLocalUploads =
path.join(__dirname, 'uploads')`. `cwd`, `tmpdir` and `dirname` stand for
the process working directory, `os.tmpdir()` and `__dirname`. -/
def uploadBase (cwd tmpdir dirname : String) (e : Env) : String :=
  if truthyS e.uploadDir then pathResolve cwd (e.uploadDir.getD "")
  else if isServerless e then pathJoin tmpdir "gym_uploads"
  else pathJoin dirname "uploads"

/-- Rev C (`server.js`): `const uploadsDir = isProduction ?
'/tmp/uploads' : path.join(__dirname, 'uploads')`. No override is
consulted. -/
def uploadsDirC (dirname : String) (e : Env) : String :=
  if isProductionC e then "/tmp/uploads" else pathJoin dirname "uploads"

/-- Rev E (`part_000`): `const uploadsDir = isProduction ? '/tmp/uploads'
: path.join(__dirname, 'uploads')` with rev E's production test. -/
def uploadsDirE (dirname : String) (e : Env) : String :=
  if isProductionE e then "/tmp/uploads" else pathJoin dirname "uploads"

/-- Rev A (`server.js` `connectToDatabase`): URI acquisition. `const
mongoUri = process.env.MONGO_URI; if (!mongoUri) throw new Error(...)`. A
missing (or falsy, that is empty) URI fails this attempt with a
configuration error; otherwise the URI is used as given. -/
def resolveMongoUriA (e : Env) : Except String String :=
  match e.mongoUri with
  | none => Except.error "MONGO_URI environment variable is not set."
  | some u =>
    if u = "" then Except.error "MONGO_URI environment variable is not set."
    else Except.ok u

/-- Revs B, C and E (`connectDatabase`): `process.env.MONGO_URI ||
'mongodb://localhost:27017/gym_management'` — an unset (or empty) URI is
silently replaced by the localhost default in every mode. -/
def resolveMongoUriDefaulted (e : Env) : String :=
  match e.mongoUri with
  | none => "mongodb://localhost:27017/gym_management"
  | some u => if u = "" then "mongodb://localhost:27017/gym_management" else u

/-- Fixed storage-area names: `const requiredDirs = ['uploads',
'whatsapp-auth', 'logs']` (revs B, C and E). -/
def requiredDirs : List String :=
  ["uploads", "whatsapp-auth", "logs"]

/-- Filesystem model for directory creation: which paths already exist,
and which `fs.mkdirSync` calls throw (for example a read-only root). -/
structure FSModel where
  existing : List String
  failing : List String
deriving DecidableEq, Repr

/-- Outcome of one `existsSync`/`mkdirSync` pair for one directory. -/
inductive DirOutcome
  | existed
  | created
  | createFailed
deriving DecidableEq, Repr

/-- One directory step: `if (!fs.existsSync(dirPath))
fs.mkdirSync(dirPath, { recursive: true })`. -/
def tryCreateDir (fs : FSModel) (p : String) : DirOutcome :=
  if fs.existing.contains p then DirOutcome.existed
  else if fs.failing.contains p then DirOutcome.createFailed
  else DirOutcome.created

/-- Rev B (`server.js` lines 197-216): `requiredDirs.forEach` with the
try/catch INSIDE the loop body, so each directory is attempted and a
`mkdirSync` failure is caught, logged and skipped per directory. The
returned association list records the attempt made for every path. -/
def ensureDirsGuarded (fs : FSModel) (paths : List String) : List (String × DirOutcome) :=
  paths.map (fun p => (p, tryCreateDir fs p))

/-- Revs C and E (`createDirectories`): one try/catch wraps the whole
`requiredDirs.forEach`, so the first `mkdirSync` that throws escapes the
loop to the outer catch (which logs and returns normally) and the
remaining directories are never attempted. The returned list records the
attempts actually made. -/
def createDirectories (fs : FSModel) : List String → List (String × DirOutcome)
  | [] => []
  | p :: rest =>
    match tryCreateDir fs p with
    | DirOutcome.createFailed => [(p, DirOutcome.createFailed)]
    | o => (p, o) :: createDirectories fs rest

/-- Directory paths attempted by rev C's `createDirectories`: `const
baseDir = isProduction ? '/tmp' : __dirname` joined with each required
directory. -/
def revC_dirPaths (dirname : String) (e : Env) : List String :=
  requiredDirs.map (pathJoin (if isProductionC e then "/tmp" else dirname))

/-- Directory paths attempted by rev B's `requiredDirs.forEach`: under
`uploadBase` when serverless, under `__dirname` otherwise. -/
def revB_dirPaths (cwd tmpdir dirname : String) (e : Env) : List String :=
  requiredDirs.map (fun d =>
    if isServerless e then pathJoin (uploadBase cwd tmpdir dirname e) d
    else pathJoin dirname d)

/-- CORS options structure as passed to the `cors` middleware. -/
structure CorsOptions where
  origins : List String
  credentials : Bool
  methods : List String
  allowedHeaders : List String
deriving DecidableEq, Repr

/-- Rev A CORS configuration (`server.js` lines 25-36). The options
object is a literal: no configuration input is read, so the embedding is
a constant function of the environment. -/
def corsOptionsRevA (_e : Env) : CorsOptions :=
  { origins := ["http://localhost:3000", "http://localhost:5173",
                "http://localhost:5174", "http://127.0.0.1:3000",
                "http://127.0.0.1:5173"]
  , credentials := true
  , methods := ["GET", "POST", "PUT", "DELETE", "OPTIONS"]
  , allowedHeaders := ["Content-Type", "Authorization"] }

/-- Rev B CORS configuration (`server.js` lines 180-191), a literal. -/
def corsOptionsRevB (_e : Env) : CorsOptions :=
  { origins := ["http://localhost:3000", "http://localhost:5173",
                "http://localhost:5174", "http://127.0.0.1:3000",
                "http://127.0.0.1:5173"]
  , credentials := true
  , methods := ["GET", "POST", "PUT", "DELETE", "OPTIONS"]
  , allowedHeaders := ["Content-Type", "Authorization"] }

/-- Rev C CORS configuration (`server.js` lines 381-392), a literal. -/
def corsOptionsRevC (_e : Env) : CorsOptions :=
  { origins := ["http://localhost:3000", "http://localhost:5173",
                "http://localhost:5174", "http://127.0.0.1:3000",
                "http://127.0.0.1:5173"]
  , credentials := true
  , methods := ["GET", "POST", "PUT", "DELETE", "OPTIONS"]
  , allowedHeaders := ["Content-Type", "Authorization"] }

/-- Rev D CORS configuration (`part_000` lines 23-35), a literal (the
sixth origin is only a comment in the source). -/
def corsOptionsRevD (_e : Env) : CorsOptions :=
  { origins := ["http://localhost:3000", "http://localhost:5173",
                "http://localhost:5174", "http://127.0.0.1:3000",
                "http://127.0.0.1:5173"]
  , credentials := true
  , methods := ["GET", "POST", "PUT", "DELETE", "OPTIONS"]
  , allowedHeaders := ["Content-Type", "Authorization"] }

/-- Rev E CORS configuration (`part_000` lines 198-209), a literal. -/
def corsOptionsRevE (_e : Env) : CorsOptions :=
  { origins := ["http://localhost:3000", "http://localhost:5173",
                "http://localhost:5174", "http://127.0.0.1:3000",
                "http://127.0.0.1:5173"]
  , credentials := true
  , methods := ["GET", "POST", "PUT", "DELETE", "OPTIONS"]
  , allowedHeaders := ["Content-Type", "Authorization"] }

/-- Boolean test that an origin is a localhost or 127.0.0.1 origin,
computed over the character list. -/
def isLocalOrigin (o : String) : Bool :=
  "http://localhost".data.isPrefixOf o.data || "http://127.0.0.1".data.isPrefixOf o.data

/-- Phase of one caller of rev A's `connectToDatabase` on the event loop.
`check` means the caller is about to run the synchronous slice from `if
(isConnected) return` up to and including the call of
`mongoose.connect` (there is no await in between, so that slice is
atomic); `awaiting` means the caller is suspended on its own
`mongoose.connect` promise; `done` means the call returned. -/
inductive CallerPhase
  | check
  | awaiting
  | done
deriving DecidableEq, Repr

/-- Process state shared by the concurrent callers of rev A's
`connectToDatabase`: the module-level `isConnected` flag, the number of
`mongoose.connect` invocations made so far, and each caller's phase. -/
structure ConnState where
  isConnected : Bool
  attempts : Nat
  phase : Nat → CallerPhase

/-- One atomic event-loop slice of caller `i` running rev A's
`connectToDatabase`, on the success path (the URI is set and the connect
promise fulfills). In the `check` phase the caller returns at once when
`isConnected` is already true, and otherwise invokes `mongoose.connect`
(one more attempt) and suspends; when its promise resolves it sets
`isConnected = true` and returns. -/
def connStep (s : ConnState) (i : Nat) : ConnState :=
  match s.phase i with
  | CallerPhase.check =>
    if s.isConnected then
      { s with phase := fun j => if j = i then CallerPhase.done else s.phase j }
    else
      { s with attempts := s.attempts + 1
             , phase := fun j => if j = i then CallerPhase.awaiting else s.phase j }
  | CallerPhase.awaiting =>
    { isConnected := true
    , attempts := s.attempts
    , phase := fun j => if j = i then CallerPhase.done else s.phase j }
  | CallerPhase.done => s

/-- Run a schedule, a list of caller indices, one atomic slice each. -/
def connRun (s : ConnState) : List Nat → ConnState
  | [] => s
  | i :: rest => connRun (connStep s i) rest

/-- Fresh process: flag unset, no attempts, every caller at its check. -/
def connInit : ConnState :=
  { isConnected := false, attempts := 0, phase := fun _ => CallerPhase.check }

/-- The schedule in which the first `n` callers issue their calls
simultaneously: every caller runs its synchronous check slice before any
connect promise resolves, then the promises resolve. -/
def simulSched (n : Nat) : List Nat :=
  List.range n ++ List.range n

/-- What a single call of rev D's `connectDatabase` does, as seen by its
caller, as a function of `mongoose.connections[0].readyState`. -/
inductive ConnectOutcome
  | immediateSuccess
  | attemptStarted
deriving DecidableEq, Repr

/-- Rev D (`part_000` lines 130-146): `if
(mongoose.connections[0].readyState) { return; }` — any non-zero (truthy)
readyState returns at once with a fulfilled promise and no
`mongoose.connect` call; only readyState 0 starts an attempt. The second
component counts the `mongoose.connect` invocations this call makes. -/
def connectDatabase (readyState : Nat) : ConnectOutcome × Nat :=
  if readyState != 0 then (ConnectOutcome.immediateSuccess, 0)
  else (ConnectOutcome.attemptStarted, 1)

/-- Mongoose readyState value meaning a connection attempt is still in
progress (`connecting`). -/
def readyStateConnecting : Nat := 2

/-- Mongoose readyState value meaning the connection is established. -/
def readyStateConnected : Nat := 1

/-- Rev D's per-request readiness middleware (`part_000` lines 151-158)
when `connectDatabase` fulfills without suspending: `true` means `next()`
is called at once, so the request proceeds to dispatch in the same
turn. -/
def gateProceedsImmediately (readyState : Nat) : Bool :=
  match (connectDatabase readyState).1 with
  | ConnectOutcome.immediateSuccess => true
  | ConnectOutcome.attemptStarted => false

/-- A raised JS error as the global error middleware sees it: an optional
numeric `status` and an optional `message`. -/
structure JsError where
  status : Option Nat
  message : Option String
deriving DecidableEq, Repr

/-- JS `error.status || 500`: an absent or zero (falsy) status falls back
to 500. -/
def jsStatusOr500 (st : Option Nat) : Nat :=
  match st with
  | none => 500
  | some s => if s = 0 then 500 else s

/-- JS `error.message || 'Internal server error'`: an absent or empty
(falsy) message falls back to the default text. -/
def jsMessageOrDefault (m : Option String) : String :=
  match m with
  | none => "Internal server error"
  | some s => if s = "" then "Internal server error" else s

/-- The JSON body `{ success, message, timestamp }` produced by the
global error middleware; `timestamp` holds `new Date().toISOString()`. -/
structure ErrorBody where
  success : Bool
  message : String
  timestamp : String
deriving DecidableEq, Repr

/-- Body of the global error middleware shared by all revisions:
`res.status(error.status || 500).json({ success: false, message:
error.message || 'Internal server error', timestamp: new
Date().toISOString() })`. `now` is the ISO-8601 timestamp taken at
response time. -/
def globalErrorHandlerBody (now : String) (e : JsError) : Nat × ErrorBody :=
  (jsStatusOr500 e.status, { success := false, message := jsMessageOrDefault e.message, timestamp := now })

/-- How a raised error is rendered to the client: either the uniform JSON
shape of the registered 4-parameter error middleware, or the HTML page of
Express's built-in final handler. -/
inductive ErrorRendering
  | jsonBody (status : Nat) (body : ErrorBody)
  | expressDefaultHtml (status : Nat)
deriving DecidableEq, Repr

/-- Status chosen by Express's built-in final handler: the error's own
status when it is a valid 4xx/5xx number, 500 otherwise. -/
def expressDefaultStatus (e : JsError) : Nat :=
  match e.status with
  | none => 500
  | some s => if 400 ≤ s ∧ s < 600 then s else 500

/-- Express recognizes a registered middleware as error-handling ONLY
when it declares exactly four parameters. An error raised by a handler is
rendered by the app's error middleware when its declared arity is 4, and
falls through to Express's built-in default handler otherwise. -/
def renderRaisedError (errorMwArity : Nat) (now : String) (e : JsError) : ErrorRendering :=
  if errorMwArity = 4 then
    ErrorRendering.jsonBody (globalErrorHandlerBody now e).1 (globalErrorHandlerBody now e).2
  else
    ErrorRendering.expressDefaultHtml (expressDefaultStatus e)

/-- Rev A registers `app.use((error, req, res) => ...)` — three declared
parameters (`server.js` line 96). -/
def revA_errorMwArity : Nat := 3

/-- Revs B, C, D and E register `app.use((error, req, res, next) =>
...)` — four declared parameters. -/
def revE_errorMwArity : Nat := 4

/-- The 404 body `{ success, message, availableRoutes? }`;
`availableRoutes = none` models a body in which the field is absent. -/
structure NotFoundBody where
  success : Bool
  message : String
  availableRoutes : Option (List String)
deriving DecidableEq, Repr

/-- Rev A's 404 handler (`server.js` lines 89-94): status 404 with
`{ success: false, message }` and no `availableRoutes` field. -/
def notFoundRevA (method url : String) : Nat × NotFoundBody :=
  (404, { success := false
        , message := "Route " ++ method ++ " " ++ url ++ " not found"
        , availableRoutes := none })

/-- The 404 handler of revs B, C and D: status 404 with `{ success:
false, message, availableRoutes }` listing the six known routes. -/
def notFoundRevB (method url : String) : Nat × NotFoundBody :=
  (404, { success := false
        , message := "Route " ++ method ++ " " ++ url ++ " not found"
        , availableRoutes := some ["/health", "/test-whatsapp", "/api/whatsapp/status",
                                   "/api/customers", "/api/attendance", "/api/reports"] })

/-- Rev E's 404 handler (`part_000` lines 309-324): as rev B's but with
the root path listed first. -/
def notFoundRevE (method url : String) : Nat × NotFoundBody :=
  (404, { success := false
        , message := "Route " ++ method ++ " " ++ url ++ " not found"
        , availableRoutes := some ["/", "/health", "/test-whatsapp", "/api/whatsapp/status",
                                   "/api/customers", "/api/attendance", "/api/reports"] })

/-- The business-logic collaborators (opaque route modules). The legacy
`/api` mounts reuse the customers/attendance/reports routers. -/
inductive Router
  | whatsappR
  | customersR
  | attendanceR
  | reportsR
deriving DecidableEq, Repr

/-- Express mount-path matching for `app.use(pre, router)`: the request
url equals the mount path, or extends it at a `/` boundary. -/
def mountMatch (pre url : String) : Bool :=
  url == pre || (pre.data ++ ['/']).isPrefixOf url.data

/-- The path a mounted router sees: the mount path is stripped from the
request url (the bare mount path itself becomes `/`). -/
def stripMount (pre url : String) : String :=
  if url == pre then "/" else String.mk (url.data.drop pre.data.length)

/-- The ordered mount table built in the Routes Registration section,
identical in all five revisions: the four canonical mounts first, then
the three legacy `/api` mounts. -/
def apiMounts : List (String × Router) :=
  [("/api/whatsapp", Router.whatsappR),
   ("/api/customers", Router.customersR),
   ("/api/attendance", Router.attendanceR),
   ("/api/reports", Router.reportsR),
   ("/api", Router.customersR),
   ("/api", Router.attendanceR),
   ("/api", Router.reportsR)]

/-- Dispatch over the mount table in registration order, parameterized by
the opaque routers' behavior `rb` (whether a router handles the stripped
path it is offered): the first mount whose path matches and whose router
handles the stripped path wins. -/
def dispatchMount (rb : Router → String → Bool) : List (String × Router) → String → Option (String × Router)
  | [], _ => none
  | m :: rest, url =>
    if mountMatch m.1 url && rb m.2 (stripMount m.1 url) then some m
    else dispatchMount rb rest url

/-- An inbound HTTP request (method and url, query already stripped). -/
structure Request where
  method : String
  url : String
deriving DecidableEq, Repr

/-- One registered element of the Express middleware/route chain. -/
inductive Stage
  | corsS
  | jsonS
  | urlencS
  | staticS
  | loggingS
  | rootS
  | healthS
  | testWhatsappS
  | mountS (pre : String) (r : Router)
  | notFoundS
  | errHandlerS (arity : Nat)
  | dbGateS
deriving DecidableEq, Repr

/-- Whether a stage responds to (terminates) the request, given the
opaque routers' behavior `rb`. The cors/body/logging middlewares pass
control on; the database gate's success path passes control on (its
failure path responds 500, but the theorems below show it is never
reached at all); error middleware is skipped in normal flow; the 404
catch-all responds to everything. Static uploads are modelled as having
no matching file for the requests considered. -/
def stageResponds (rb : Router → String → Bool) (s : Stage) (r : Request) : Bool :=
  match s with
  | Stage.corsS => false
  | Stage.jsonS => false
  | Stage.urlencS => false
  | Stage.staticS => false
  | Stage.loggingS => false
  | Stage.rootS => r.method == "GET" && r.url == "/"
  | Stage.healthS => r.method == "GET" && r.url == "/health"
  | Stage.testWhatsappS => r.method == "GET" && r.url == "/test-whatsapp"
  | Stage.mountS pre rt => mountMatch pre r.url && rb rt (stripMount pre r.url)
  | Stage.notFoundS => true
  | Stage.errHandlerS _ => false
  | Stage.dbGateS => false

/-- The chain of stages a request traverses, in registration order, up to
and including the stage that responds. -/
def runUntil (rb : Router → String → Bool) : List Stage → Request → List Stage
  | [], _ => []
  | k :: rest, r =>
    if stageResponds rb k r then [k] else k :: runUntil rb rest r

/-- The stage that responds to the request, if any. -/
def responder (rb : Router → String → Bool) : List Stage → Request → Option Stage
  | [], _ => none
  | k :: rest, r =>
    if stageResponds rb k r then some k else responder rb rest r

/-- Rev A's registration order (`server.js` first block): cors, body
parsing, logging, the root route, the four canonical mounts, the three
legacy mounts, health, the 404 catch-all, the (3-parameter) error
middleware, and LAST the per-request database middleware of lines
129-136. -/
def revA_pipeline : List Stage :=
  [Stage.corsS, Stage.jsonS, Stage.urlencS, Stage.loggingS, Stage.rootS,
   Stage.mountS "/api/whatsapp" Router.whatsappR,
   Stage.mountS "/api/customers" Router.customersR,
   Stage.mountS "/api/attendance" Router.attendanceR,
   Stage.mountS "/api/reports" Router.reportsR,
   Stage.mountS "/api" Router.customersR,
   Stage.mountS "/api" Router.attendanceR,
   Stage.mountS "/api" Router.reportsR,
   Stage.healthS, Stage.notFoundS, Stage.errHandlerS 3, Stage.dbGateS]

/-- Rev D's registration order (`part_000` first block): cors, body
parsing, static uploads, logging, the mounts, health, test-whatsapp, the
404 catch-all, the (4-parameter) error middleware, and LAST the
per-request database middleware of lines 151-158. -/
def revD_pipeline : List Stage :=
  [Stage.corsS, Stage.jsonS, Stage.urlencS, Stage.staticS, Stage.loggingS,
   Stage.mountS "/api/whatsapp" Router.whatsappR,
   Stage.mountS "/api/customers" Router.customersR,
   Stage.mountS "/api/attendance" Router.attendanceR,
   Stage.mountS "/api/reports" Router.reportsR,
   Stage.mountS "/api" Router.customersR,
   Stage.mountS "/api" Router.attendanceR,
   Stage.mountS "/api" Router.reportsR,
   Stage.healthS, Stage.testWhatsappS, Stage.notFoundS, Stage.errHandlerS 4, Stage.dbGateS]

/-- Router behavior in which every router handles every path offered. -/
def rbAll : Router → String → Bool := fun _ _ => true

/-- Router behavior in which no router handles any path (every mounted
router falls through). -/
def rbNone : Router → String → Bool := fun _ _ => false

/-- A production-equivalent environment with no database URI configured
(`NODE_ENV=production`, `MONGO_URI` unset). -/
def prodNoUriEnv : Env :=
  { nodeEnv := some "production", vercel := none, mongoUri := none
  , uploadDir := none, port := none }

/-- A production-equivalent environment with an explicit storage-path
override set (`UPLOAD_DIR=/custom/store`). -/
def overrideProdEnv : Env :=
  { nodeEnv := some "production", vercel := some "1", mongoUri := none
  , uploadDir := some "/custom/store", port := none }

/-- A filesystem in which nothing exists yet and creating `/tmp/uploads`
throws (for example `/tmp` is read-only for the process). -/
def fsReadOnlyTmp : FSModel :=
  { existing := [], failing := ["/tmp/uploads"] }

theorem listPrefix_trans {a b c : List Char} (h1 : a.isPrefixOf b = true)
    (h2 : b.isPrefixOf c = true) : a.isPrefixOf c = true := by
  induction a generalizing b c with
  | nil => simp [List.isPrefixOf]
  | cons x xs ih =>
    cases b with
    | nil => simp [List.isPrefixOf] at h1
    | cons y ys =>
      cases c with
      | nil => simp [List.isPrefixOf] at h2
      | cons z zs =>
        simp only [List.isPrefixOf_cons₂, Bool.and_eq_true, beq_iff_eq] at h1 h2 ⊢
        exact ⟨h1.1.trans h2.1, ih h1.2 h2.2⟩

theorem listPrefix_append_self (l t : List Char) : l.isPrefixOf (l ++ t) = true := by
  induction l with
  | nil => simp
  | cons x xs ih => simp [List.isPrefixOf_cons₂, ih]

/-- Claim C6: every request whose path starts with `/api/whatsapp` (at a
mount boundary) and which the whatsapp collaborator handles is dispatched
to the canonical `/api/whatsapp` mount and never to a legacy `/api`
mount, because the canonical mounts are registered before the legacy
aliases and matching follows registration order; the legacy `/api` mount
does also match such paths, so the ordering is what decides. -/
theorem claim6_canonical_precedence :
    ∀ (rb : Router → String → Bool) (url : String),
      mountMatch "/api/whatsapp" url = true →
      rb Router.whatsappR (stripMount "/api/whatsapp" url) = true →
      dispatchMount rb apiMounts url = some ("/api/whatsapp", Router.whatsappR) ∧
      mountMatch "/api" url = true := by
  intro rb url h1 h2
  refine ⟨by simp [apiMounts, dispatchMount, h1, h2], ?_⟩
  have h1' := h1
  rw [mountMatch, Bool.or_eq_true] at h1'
  rcases h1' with he | hp
  · have : url = "/api/whatsapp" := eq_of_beq he
    subst this
    decide
  · rw [mountMatch, Bool.or_eq_true]
    right
    exact listPrefix_trans (by decide) hp

theorem claim6_witness :
    dispatchMount rbAll apiMounts "/api/whatsapp/status" = some ("/api/whatsapp", Router.whatsappR) ∧
    mountMatch "/api" "/api/whatsapp/status" = true :=
  claim6_canonical_precedence rbAll "/api/whatsapp/status" (by decide) rfl

/-- Claim C7 (code evaluated at the failing input): in the 4-parameter
revisions, a handler error carrying status 403 is rendered by the global
error middleware as HTTP 403 with exactly `{ success: false, message,
timestamp }`; but rev A declares the same middleware with only three
parameters, so Express does not recognize it as error middleware and a
403 error there is rendered by Express's built-in default handler (HTML
body), which is not the uniform JSON shape. The process does not crash in
either case. -/
theorem claim7_error_normalizer :
    (∀ now msg : String,
      renderRaisedError revE_errorMwArity now { status := some 403, message := some msg } =
        ErrorRendering.jsonBody 403
          { success := false, message := jsMessageOrDefault (some msg), timestamp := now }) ∧
    jsMessageOrDefault (some "Forbidden") = "Forbidden" ∧
    (∀ now : String,
      renderRaisedError revA_errorMwArity now { status := some 403, message := some "Forbidden" } =
        ErrorRendering.expressDefaultHtml 403) ∧
    (∀ (st : Nat) (b : ErrorBody),
      ErrorRendering.expressDefaultHtml 403 ≠ ErrorRendering.jsonBody st b) := by
  refine ⟨fun now msg => ?_, rfl, fun now => ?_, fun st b h => ?_⟩
  · simp [renderRaisedError, revE_errorMwArity, globalErrorHandlerBody, jsStatusOr500]
  · simp [renderRaisedError, revA_errorMwArity, expressDefaultStatus]
  · cases h

/-- Claim C8 counterexample: in rev A, the request `GET
/api/unknown-thing` reaches the 404 catch-all and gets status 404 with
`success: false`, but the body carries no `availableRoutes` field at all,
so no `availableRoutes` array containing `/health` is returned. -/
theorem claim8_counterexample :
    (notFoundRevA "GET" "/api/unknown-thing").1 = 404 ∧
    (notFoundRevA "GET" "/api/unknown-thing").2.success = false ∧
    (notFoundRevA "GET" "/api/unknown-thing").2.availableRoutes = none ∧
    ((notFoundRevA "GET" "/api/unknown-thing").2.availableRoutes.getD []).contains "/health" = false ∧
    responder rbNone revA_pipeline { method := "GET", url := "/api/unknown-thing" } =
      some Stage.notFoundS := by
  refine ⟨rfl, rfl, rfl, rfl, by decide⟩

/-- Claim C8 as amended: every unmatched request is answered with HTTP
404 and `success: false` in all revisions; the revisions with the
availableRoutes-bearing 404 handler (B, C, D and E) include an
`availableRoutes` array containing `/health`, while rev A's 404 body has
only `success` and `message` and no `availableRoutes` field. -/
theorem claim8_notfound_amended :
    (∀ method url : String, (notFoundRevA method url).1 = 404 ∧
      (notFoundRevA method url).2.success = false ∧
      (notFoundRevA method url).2.availableRoutes = none) ∧
    (∀ method url : String, (notFoundRevB method url).1 = 404 ∧
      (notFoundRevB method url).2.success = false ∧
      ((notFoundRevB method url).2.availableRoutes.getD []).contains "/health" = true) ∧
    (∀ method url : String, (notFoundRevE method url).1 = 404 ∧
      (notFoundRevE method url).2.success = false ∧
      ((notFoundRevE method url).2.availableRoutes.getD []).contains "/health" = true) ∧
    responder rbNone revD_pipeline { method := "GET", url := "/api/unknown-thing" } =
      some Stage.notFoundS := by
  refine ⟨fun method url => ⟨rfl, rfl, rfl⟩, fun method url => ⟨rfl, rfl, rfl⟩,
    fun method url => ⟨rfl, rfl, rfl⟩, by decide⟩

/-- Claim C9: in the revision guarding `connectDatabase` by
`mongoose.connections[0].readyState`, every call made while the
readyState is non-zero — including 2, the value meaning an attempt is
still in progress — returns immediately and successfully, makes no
`mongoose.connect` call, and does not wait on the in-flight attempt; the
readiness middleware therefore calls `next()` at once and the request
proceeds to its handler although readyState 2 is not the connected
state. -/
theorem claim9_readystate_guard :
    (∀ rs : Nat, rs ≠ 0 →
      connectDatabase rs = (ConnectOutcome.immediateSuccess, 0) ∧
      gateProceedsImmediately rs = true) ∧
    gateProceedsImmediately readyStateConnecting = true ∧
    readyStateConnecting ≠ readyStateConnected := by
  refine ⟨fun rs h => ?_, by decide, by decide⟩
  have hb : (rs != 0) = true := by simpa [bne_iff_ne] using h
  exact ⟨by simp [connectDatabase, hb], by simp [gateProceedsImmediately, connectDatabase, hb]⟩

theorem claim9_witness :
    connectDatabase 2 = (ConnectOutcome.immediateSuccess, 0) ∧
    gateProceedsImmediately 2 = true :=
  claim9_readystate_guard.1 2 (by decide)

/-- Claim C10: the CORS policy is the same literal constant in all five
revisions — the same five localhost/127.0.0.1 origins, methods GET, POST,
PUT, DELETE, OPTIONS, headers Content-Type and Authorization, and
credentials enabled — and no configuration input influences it: any two
runs with different environments get the identical policy. -/
theorem claim10_cors_constant :
    (∀ e : Env, corsOptionsRevA e = corsOptionsRevB e ∧ corsOptionsRevB e = corsOptionsRevC e ∧
      corsOptionsRevC e = corsOptionsRevD e ∧ corsOptionsRevD e = corsOptionsRevE e) ∧
    (∀ e1 e2 : Env, corsOptionsRevA e1 = corsOptionsRevA e2 ∧ corsOptionsRevE e1 = corsOptionsRevE e2) ∧
    (∀ e : Env, (corsOptionsRevA e).origins.length = 5 ∧
      (corsOptionsRevA e).origins.all isLocalOrigin = true ∧
      (corsOptionsRevA e).credentials = true ∧
      (corsOptionsRevA e).methods = ["GET", "POST", "PUT", "DELETE", "OPTIONS"] ∧
      (corsOptionsRevA e).allowedHeaders = ["Content-Type", "Authorization"]) := by
  refine ⟨fun e => ⟨rfl, rfl, rfl, rfl⟩, fun e1 e2 => ⟨rfl, rfl⟩,
    fun e => ⟨rfl, rfl, rfl, rfl, rfl⟩⟩

/-- Claim C3 counterexample: in the `connectDatabase` revisions, a
production-equivalent environment (rev E's production test is true) with
no database URI does not fail the attempt with a configuration error —
the URI is silently replaced by the localhost default. -/
theorem claim3_counterexample :
    isProductionE prodNoUriEnv = true ∧
    prodNoUriEnv.mongoUri = none ∧
    resolveMongoUriDefaulted prodNoUriEnv = "mongodb://localhost:27017/gym_management" :=
  ⟨rfl, rfl, rfl⟩

/-- Claim C3 as amended: in the `connectToDatabase` revision a missing
(falsy) URI fails the attempt with a configuration error and is never
defaulted; in the `connectDatabase` revisions a missing URI is silently
replaced by `mongodb://localhost:27017/gym_management` in every mode,
including production-equivalent ones. -/
theorem claim3_uri_default_amended :
    (∀ e : Env, truthyS e.mongoUri = false →
      resolveMongoUriA e = Except.error "MONGO_URI environment variable is not set.") ∧
    (∀ e : Env, e.mongoUri = none →
      resolveMongoUriDefaulted e = "mongodb://localhost:27017/gym_management") ∧
    (∀ e : Env, e.nodeEnv = some "production" → isProductionE e = true) := by
  refine ⟨fun e h => ?_, fun e h => by simp [resolveMongoUriDefaulted, h],
    fun e h => by simp [isProductionE, h]⟩
  cases hm : e.mongoUri with
  | none => simp [resolveMongoUriA, hm]
  | some u =>
    rw [hm] at h
    have hu : u = "" := by simpa [truthyS] using h
    subst hu
    simp [resolveMongoUriA, hm]

theorem claim3_witness :
    resolveMongoUriA prodNoUriEnv = Except.error "MONGO_URI environment variable is not set." ∧
    resolveMongoUriDefaulted prodNoUriEnv = "mongodb://localhost:27017/gym_management" ∧
    isProductionE prodNoUriEnv = true :=
  ⟨claim3_uri_default_amended.1 prodNoUriEnv rfl,
   claim3_uri_default_amended.2.1 prodNoUriEnv rfl,
   claim3_uri_default_amended.2.2 prodNoUriEnv rfl⟩

/-- Claim C4 counterexample: in the `uploadsDir` revision, a
configuration with the storage-path override `/custom/store` set and
production classification resolves the storage root to `/tmp/uploads`,
not to the override — the override is ignored there. -/
theorem claim4_counterexample :
    overrideProdEnv.uploadDir = some "/custom/store" ∧
    isProductionC overrideProdEnv = true ∧
    uploadsDirC "/app" overrideProdEnv = "/tmp/uploads" ∧
    pathResolve "/cwd" "/custom/store" = "/custom/store" ∧
    uploadsDirC "/app" overrideProdEnv ≠ "/custom/store" := by
  refine ⟨rfl, rfl, rfl, rfl, by decide⟩

/-- Claim C4 as amended: in the `uploadBase` revision a non-empty
storage-path override yields exactly the override resolved to an absolute
path, regardless of the serverless classification, and without an
override the serverless classification yields a root under the
temporary-storage area (`tmpdir/gym_uploads`) and the persistent one a
root under the application's own directory; the `uploadsDir` revisions
consult no override — their root depends only on the production
classification, `/tmp/uploads` when production-equivalent and the
application directory's `uploads` folder otherwise. A joined path always
lies under its base. -/
theorem claim4_storage_root_amended :
    (∀ (cwd tmpdir dirname : String) (e : Env) (u : String),
      e.uploadDir = some u → u ≠ "" →
      uploadBase cwd tmpdir dirname e = pathResolve cwd u) ∧
    (∀ (cwd tmpdir dirname : String) (e : Env),
      e.uploadDir = none → isServerless e = true →
      uploadBase cwd tmpdir dirname e = pathJoin tmpdir "gym_uploads") ∧
    (∀ (cwd tmpdir dirname : String) (e : Env),
      e.uploadDir = none → isServerless e = false →
      uploadBase cwd tmpdir dirname e = pathJoin dirname "uploads") ∧
    (∀ (dirname : String) (e e' : Env), isProductionC e = isProductionC e' →
      uploadsDirC dirname e = uploadsDirC dirname e') ∧
    (∀ (dirname : String) (e : Env), isProductionC e = true →
      uploadsDirC dirname e = "/tmp/uploads") ∧
    (∀ (dirname : String) (e : Env), isProductionC e = false →
      uploadsDirC dirname e = pathJoin dirname "uploads") ∧
    (∀ (dirname : String) (e : Env), isProductionE e = true →
      uploadsDirE dirname e = "/tmp/uploads") ∧
    (∀ a b : String, a.data.isPrefixOf (pathJoin a b).data = true) := by
  refine ⟨fun cwd tmpdir dirname e u h hne => ?_,
    fun cwd tmpdir dirname e h h2 => by simp [uploadBase, truthyS, h, h2],
    fun cwd tmpdir dirname e h h2 => by simp [uploadBase, truthyS, h, h2],
    fun dirname e e' h => by simp [uploadsDirC, h],
    fun dirname e h => by simp [uploadsDirC, h],
    fun dirname e h => by simp [uploadsDirC, h],
    fun dirname e h => by simp [uploadsDirE, h],
    fun a b => ?_⟩
  · have ht : truthyS (some u) = true := by simp [truthyS, hne]
    simp [uploadBase, h, ht]
  · have hd : (pathJoin a b).data = a.data ++ ("/" ++ b).data := by
      simp [pathJoin, String.data_append, List.append_assoc]
    rw [hd]
    exact listPrefix_append_self a.data ("/" ++ b).data

theorem claim4_witness :
    uploadBase "/cwd" "/tmp" "/app"
      { nodeEnv := none, vercel := some "1", mongoUri := none
      , uploadDir := some "sub", port := none } = pathResolve "/cwd" "sub" ∧
    uploadBase "/cwd" "/tmp" "/app"
      { nodeEnv := none, vercel := some "1", mongoUri := none
      , uploadDir := none, port := none } = pathJoin "/tmp" "gym_uploads" ∧
    uploadBase "/cwd" "/tmp" "/app"
      { nodeEnv := none, vercel := none, mongoUri := none
      , uploadDir := none, port := none } = pathJoin "/app" "uploads" ∧
    uploadsDirC "/app" prodNoUriEnv = "/tmp/uploads" :=
  ⟨claim4_storage_root_amended.1 "/cwd" "/tmp" "/app" _ "sub" rfl (by decide),
   claim4_storage_root_amended.2.1 "/cwd" "/tmp" "/app" _ rfl rfl,
   claim4_storage_root_amended.2.2.1 "/cwd" "/tmp" "/app" _ rfl rfl,
   claim4_storage_root_amended.2.2.2.2.1 "/app" _ rfl⟩

/-- Claim C5 counterexample: in the `createDirectories` revisions, with
`/tmp/uploads` failing to create, only the first area is attempted — the
creation attempts for `whatsapp-auth` and `logs` are never made, because
the single try/catch wraps the whole loop and the first throw aborts
it. -/
theorem claim5_counterexample :
    revC_dirPaths "/app" prodNoUriEnv = ["/tmp/uploads", "/tmp/whatsapp-auth", "/tmp/logs"] ∧
    createDirectories fsReadOnlyTmp (revC_dirPaths "/app" prodNoUriEnv) =
      [("/tmp/uploads", DirOutcome.createFailed)] ∧
    ((createDirectories fsReadOnlyTmp (revC_dirPaths "/app" prodNoUriEnv)).map
      Prod.fst).contains "/tmp/whatsapp-auth" = false := by
  refine ⟨by decide, by decide, by decide⟩

/-- Claim C5 as amended: a failed creation is never propagated as a
fatal error in any revision (both loops return normally); in the
`requiredDirs.forEach` revision every area is independently guarded, so
all areas are attempted whatever fails, but in the `createDirectories`
revisions the attempted areas are only a prefix of the list: the first
area whose creation throws ends the loop and the remaining areas are
never attempted. -/
theorem claim5_dirs_amended :
    (∀ (fs : FSModel) (paths : List String),
      (ensureDirsGuarded fs paths).map Prod.fst = paths) ∧
    (∀ (fs : FSModel) (paths : List String),
      ∃ t, ((createDirectories fs paths).map Prod.fst) ++ t = paths) ∧
    (∀ (fs : FSModel) (p : String) (rest : List String),
      tryCreateDir fs p = DirOutcome.createFailed →
      createDirectories fs (p :: rest) = [(p, DirOutcome.createFailed)]) := by
  refine ⟨fun fs paths => ?_, fun fs paths => ?_, fun fs p rest h => by
    simp [createDirectories, h]⟩
  · induction paths with
    | nil => rfl
    | cons p ps ih => simp only [ensureDirsGuarded, List.map_map] at ih ⊢; simp [ih]
  · induction paths with
    | nil => exact ⟨[], rfl⟩
    | cons p ps ih =>
      cases h : tryCreateDir fs p with
      | createFailed => exact ⟨ps, by simp [createDirectories, h]⟩
      | existed =>
        obtain ⟨t, ht⟩ := ih
        exact ⟨t, by simp [createDirectories, h, ht]⟩
      | created =>
        obtain ⟨t, ht⟩ := ih
        exact ⟨t, by simp [createDirectories, h, ht]⟩

theorem claim5_witness :
    createDirectories fsReadOnlyTmp ["/tmp/uploads", "/tmp/whatsapp-auth", "/tmp/logs"] =
      [("/tmp/uploads", DirOutcome.createFailed)] :=
  claim5_dirs_amended.2.2 fsReadOnlyTmp "/tmp/uploads" ["/tmp/whatsapp-auth", "/tmp/logs"]
    (by decide)

theorem runUntil_cut (rb : Router → String → Bool) (r : Request) :
    ∀ (l1 l2 : List Stage),
      runUntil rb (l1 ++ Stage.notFoundS :: l2) r = runUntil rb (l1 ++ [Stage.notFoundS]) r := by
  intro l1 l2
  induction l1 with
  | nil => simp [runUntil, stageResponds]
  | cons a t ih =>
    by_cases h : stageResponds rb a r = true
    · simp [runUntil, h]
    · simp [runUntil, h, ih]

theorem mem_runUntil (rb : Router → String → Bool) (r : Request) :
    ∀ (l : List Stage) (x : Stage), x ∈ runUntil rb l r → x ∈ l := by
  intro l
  induction l with
  | nil => intro x hx; simp [runUntil] at hx
  | cons a t ih =>
    intro x hx
    by_cases h : stageResponds rb a r = true
    · simp [runUntil, h] at hx
      simp [hx]
    · simp [runUntil, h] at hx
      rcases hx with hx | hx
      · simp [hx]
      · exact List.mem_cons_of_mem a (ih x hx)

/-- Claim C2 (code evaluated at the failing input): in both revisions
that register a per-request database middleware, that middleware is
registered after every route mount and after the always-matching 404
catch-all, so it is never executed for any request under any collaborator
behavior — requests dispatch into business handlers with no
database-readiness check, and a failed connection can never produce the
claimed service-unavailable short-circuit. In particular `GET
/api/customers/1` is answered by the customers mount with the gate never
having run. -/
theorem claim2_gate_unreachable :
    (∀ (rb : Router → String → Bool) (req : Request),
      Stage.dbGateS ∉ runUntil rb revA_pipeline req) ∧
    (∀ (rb : Router → String → Bool) (req : Request),
      Stage.dbGateS ∉ runUntil rb revD_pipeline req) ∧
    responder rbAll revA_pipeline { method := "GET", url := "/api/customers/1" } =
      some (Stage.mountS "/api/customers" Router.customersR) ∧
    responder rbAll revD_pipeline { method := "GET", url := "/api/customers/1" } =
      some (Stage.mountS "/api/customers" Router.customersR) := by
  refine ⟨fun rb req hmem => ?_, fun rb req hmem => ?_, by decide, by decide⟩
  · have e1 : revA_pipeline =
        ([Stage.corsS, Stage.jsonS, Stage.urlencS, Stage.loggingS, Stage.rootS,
          Stage.mountS "/api/whatsapp" Router.whatsappR,
          Stage.mountS "/api/customers" Router.customersR,
          Stage.mountS "/api/attendance" Router.attendanceR,
          Stage.mountS "/api/reports" Router.reportsR,
          Stage.mountS "/api" Router.customersR,
          Stage.mountS "/api" Router.attendanceR,
          Stage.mountS "/api" Router.reportsR,
          Stage.healthS] ++ Stage.notFoundS :: [Stage.errHandlerS 3, Stage.dbGateS]) := rfl
    rw [e1, runUntil_cut] at hmem
    exact absurd (mem_runUntil rb req _ _ hmem) (by decide)
  · have e1 : revD_pipeline =
        ([Stage.corsS, Stage.jsonS, Stage.urlencS, Stage.staticS, Stage.loggingS,
          Stage.mountS "/api/whatsapp" Router.whatsappR,
          Stage.mountS "/api/customers" Router.customersR,
          Stage.mountS "/api/attendance" Router.attendanceR,
          Stage.mountS "/api/reports" Router.reportsR,
          Stage.mountS "/api" Router.customersR,
          Stage.mountS "/api" Router.attendanceR,
          Stage.mountS "/api" Router.reportsR,
          Stage.healthS, Stage.testWhatsappS] ++
            Stage.notFoundS :: [Stage.errHandlerS 4, Stage.dbGateS]) := rfl
    rw [e1, runUntil_cut] at hmem
    exact absurd (mem_runUntil rb req _ _ hmem) (by decide)

theorem connRun_append (s : ConnState) (l1 l2 : List Nat) :
    connRun s (l1 ++ l2) = connRun (connRun s l1) l2 := by
  induction l1 generalizing s with
  | nil => rfl
  | cons i t ih => simp only [List.cons_append, connRun]; exact ih (connStep s i)

theorem connRun_checks (n : Nat) :
    (connRun connInit (List.range n)).isConnected = false ∧
    (connRun connInit (List.range n)).attempts = n ∧
    ∀ j, (connRun connInit (List.range n)).phase j =
      (if j < n then CallerPhase.awaiting else CallerPhase.check) := by
  induction n with
  | zero => exact ⟨rfl, rfl, fun j => by simp [connRun, connInit]⟩
  | succ n ih =>
    obtain ⟨hc, ha, hp⟩ := ih
    rw [List.range_succ, connRun_append]
    set S := connRun connInit (List.range n) with hS
    have hpn : S.phase n = CallerPhase.check := by rw [hp n]; simp
    have hstep : connStep S n =
        { isConnected := S.isConnected, attempts := S.attempts + 1
        , phase := fun j => if j = n then CallerPhase.awaiting else S.phase j } := by
      simp [connStep, hpn, hc]
    refine ⟨by simp [connRun, hstep, hc], by simp [connRun, hstep, ha], fun j => ?_⟩
    simp only [connRun, hstep]
    by_cases hj : j = n
    · subst hj; simp
    · by_cases hl : j < n
      · simp [hj, hp j, hl, Nat.lt_succ_of_lt hl]
      · have h1 : ¬ j < n + 1 := by omega
        simp [hj, hp j, hl, h1]

theorem connRun_resolves (n : Nat) (s : ConnState) (hc : s.isConnected = false)
    (hp : ∀ j, s.phase j = (if j < n then CallerPhase.awaiting else CallerPhase.check)) :
    ∀ m, m ≤ n →
      ((connRun s (List.range m)).isConnected = decide (0 < m)) ∧
      ((connRun s (List.range m)).attempts = s.attempts) ∧
      (∀ j, (connRun s (List.range m)).phase j =
        (if j < m then CallerPhase.done else s.phase j)) := by
  intro m
  induction m with
  | zero => intro _; exact ⟨by simp [connRun, hc], rfl, fun j => by simp [connRun]⟩
  | succ m ih =>
    intro hm
    obtain ⟨ic, ia, ip⟩ := ih (Nat.le_of_succ_le hm)
    rw [List.range_succ, connRun_append]
    set T := connRun s (List.range m) with hT
    have hmn : m < n := by omega
    have hpm : T.phase m = CallerPhase.awaiting := by
      simp [ip m, hp m, hmn]
    have hstep : connStep T m =
        { isConnected := true, attempts := T.attempts
        , phase := fun j => if j = m then CallerPhase.done else T.phase j } := by
      simp [connStep, hpm]
    refine ⟨by simp [connRun, hstep], by simp [connRun, hstep, ia], fun j => ?_⟩
    simp only [connRun, hstep]
    by_cases hj : j = m
    · subst hj; simp
    · by_cases hl : j < m
      · simp [hj, ip j, hl, Nat.lt_succ_of_lt hl]
      · have h1 : ¬ j < m + 1 := by omega
        simp [hj, ip j, hl, h1]

theorem connRun_simul (n : Nat) :
    (connRun connInit (simulSched n)).attempts = n ∧
    (connRun connInit (simulSched n)).isConnected = decide (0 < n) ∧
    ∀ j, j < n → (connRun connInit (simulSched n)).phase j = CallerPhase.done := by
  obtain ⟨hc, ha, hp⟩ := connRun_checks n
  obtain ⟨ic, ia, ip⟩ :=
    connRun_resolves n (connRun connInit (List.range n)) hc hp n (Nat.le_refl n)
  rw [simulSched, connRun_append]
  exact ⟨by rw [ia, ha], by rw [ic], fun j hj => by simp [ip j, hj]⟩

/-- Claim C1 counterexample: two calls of rev A's `connectToDatabase`
issued simultaneously from the `Disconnected` state (schedule
`[0, 1, 0, 1]`: both callers run their check slice before either connect
promise resolves) make TWO underlying `mongoose.connect` attempts, not
exactly one, although both callers complete. -/
theorem claim1_counterexample :
    (connRun connInit (simulSched 2)).attempts = 2 ∧
    ¬ ((connRun connInit (simulSched 2)).attempts = 1) ∧
    (connRun connInit (simulSched 2)).phase 0 = CallerPhase.done ∧
    (connRun connInit (simulSched 2)).phase 1 = CallerPhase.done := by
  refine ⟨rfl, by decide, rfl, rfl⟩

/-- Claim C1 as amended: the bare-boolean guard of `connectToDatabase`
is not single-flight — under the simultaneous schedule each of the N
callers that observes the unset flag starts its own
connection-establishment attempt (N attempts in total), all N callers
complete and the flag ends set; only a call that begins after a
successful completion short-circuits without a new attempt. In the
readyState revision (`connectDatabase`), a caller observing an in-flight
attempt (readyState 2) starts no second attempt but returns immediately
instead of waiting on the in-flight outcome. -/
theorem claim1_singleflight_amended :
    (∀ n : Nat,
      (connRun connInit (simulSched n)).attempts = n ∧
      (0 < n → (connRun connInit (simulSched n)).isConnected = true) ∧
      (∀ i, i < n → (connRun connInit (simulSched n)).phase i = CallerPhase.done)) ∧
    (∀ (s : ConnState) (i : Nat), s.isConnected = true →
      (connStep s i).attempts = s.attempts ∧ (connStep s i).isConnected = true) ∧
    connectDatabase readyStateConnecting = (ConnectOutcome.immediateSuccess, 0) := by
  refine ⟨fun n => ?_, fun s i h => ?_, by decide⟩
  · obtain ⟨ha, hc, hp⟩ := connRun_simul n
    exact ⟨ha, fun hn => by simp [hc, hn], hp⟩
  · cases hph : s.phase i with
    | check => exact ⟨by simp [connStep, hph, h], by simp [connStep, hph, h]⟩
    | awaiting => exact ⟨by simp [connStep, hph], by simp [connStep, hph]⟩
    | done => exact ⟨by simp [connStep, hph], by simp [connStep, hph, h]⟩

theorem claim1_witness :
    (connRun connInit (simulSched 3)).attempts = 3 ∧
    (connRun connInit (simulSched 3)).isConnected = true ∧
    (connRun connInit (simulSched 3)).phase 1 = CallerPhase.done ∧
    (connStep { isConnected := true, attempts := 5, phase := fun _ => CallerPhase.check } 0).attempts = 5 :=
  ⟨(claim1_singleflight_amended.1 3).1,
   (claim1_singleflight_amended.1 3).2.1 (by decide),
   (claim1_singleflight_amended.1 3).2.2 1 (by decide),
   (claim1_singleflight_amended.2.1
     { isConnected := true, attempts := 5, phase := fun _ => CallerPhase.check } 0 rfl).1⟩

end Backend
